import Mathlib

/-!
Shallow embedding of the book-listing service in `src/main.go` and proofs
about its parameter validation, SQL construction, execution and HTTP
handling logic.

The Go source is a single file: `getBooks` reads the query parameters
`limit`, `offset`, `genre`, `sort` from the request, validates them,
builds a parameterized SQL statement with a parallel argument list,
executes it, scans rows into `Book` values and returns them together
with the elapsed time of the database call; `makeGetBooksHandler` wraps
this into an HTTP handler that serializes the result as indented JSON.

The embedding below mirrors the Go code line by line.  The database is
modelled as an oracle `String → List Arg → DBResult` describing, for the
issued query and arguments, the outcome of `db.QueryContext` (an error
or a cursor), the per-row outcome of `rows.Scan`, and the terminal
`rows.Err()`.  The elapsed wall-clock time of the single database call
is an oracle parameter as well.  A Go slice of books is modelled as
`Option (List Book)` so that the `nil` slice (never appended to) is
distinguishable from a non-nil slice, exactly as `encoding/json`
distinguishes them (`null` versus `[...]`).
-/

set_option autoImplicit false

deriving instance DecidableEq for Except

namespace GoBooks

/-- `unicode.IsSpace` as used by Go's `strings.TrimSpace`, on the code
points Go reports as white space. -/
def goIsSpace (c : Char) : Bool :=
  c.toNat = 9 || c.toNat = 10 || c.toNat = 11 || c.toNat = 12 ||
  c.toNat = 13 || c.toNat = 32 || c.toNat = 0x85 || c.toNat = 0xA0 ||
  c.toNat = 0x1680 || (0x2000 ≤ c.toNat && c.toNat ≤ 0x200A) ||
  c.toNat = 0x2028 || c.toNat = 0x2029 || c.toNat = 0x202F ||
  c.toNat = 0x205F || c.toNat = 0x3000

/-- Go's `strings.TrimSpace`: drop white space from both ends. -/
def trimSpace (s : String) : String :=
  ⟨((s.data.dropWhile goIsSpace).reverse.dropWhile goIsSpace).reverse⟩

/-- ASCII decimal digit test, as accepted by `strconv.ParseInt` base 10. -/
def isDigitChar (c : Char) : Bool :=
  48 ≤ c.toNat && c.toNat ≤ 57

/-- Value of a non-empty all-digit character list; `none` otherwise. -/
def digitsVal (l : List Char) : Option Nat :=
  if l ≠ [] ∧ l.all isDigitChar then
    some (l.foldl (fun acc c => acc * 10 + (c.toNat - 48)) 0)
  else none

/-- Go's `strconv.Atoi` on a 64-bit platform: an optional sign followed
by at least one ASCII digit, rejecting values outside the `int64` range
(`ErrRange` makes `err ≠ nil`, which the caller treats as failure). -/
def atoi (s : String) : Option Int :=
  let l := s.data
  let p : Bool × List Char :=
    match l with
    | '-' :: rest => (true, rest)
    | '+' :: rest => (false, rest)
    | _ => (false, l)
  match digitsVal p.2 with
  | none => none
  | some n =>
    let v : Int := if p.1 then -(n : Int) else (n : Int)
    if -(2 ^ 63) ≤ v ∧ v ≤ 2 ^ 63 - 1 then some v else none

/-- The `Book` struct of `main.go` (`id`, `title`, `price`, `genre`). -/
structure Book where
  id : Int
  title : String
  price : Int
  genre : String
deriving DecidableEq, Repr

/-- One element of the `args []interface\x7b\x7d` list passed to
`db.QueryContext`: either a bound string (the genre) or a bound integer
(limit, offset). -/
inductive Arg where
  | str (s : String)
  | int (n : Int)
deriving DecidableEq, Repr

/-- The raw query parameters of one request.  `r.URL.Query().Get`
returns `""` for an absent parameter, so absence is the empty string. -/
structure Query where
  limit : String
  offset : String
  genre : String
  sort : String
deriving DecidableEq, Repr

/-- Oracle for the single `db.QueryContext` call: the error returned by
the call itself, the outcome of `rows.Scan` for each row of the cursor
in order, and the terminal `rows.Err()` after exhaustion. -/
structure DBResult where
  queryErr : Option String
  scans : List (Except String Book)
  rowsErr : Option String
deriving Repr

/-- Everything observable about one `getBooks` invocation: the returned
slice (`none` is Go's nil slice), the returned error, the returned
elapsed milliseconds, the database calls issued (query text and bound
arguments), and the log records emitted. -/
structure GetBooksOutcome where
  books : Option (List Book)
  err : Option String
  elapsed : Int
  dbCalls : List (String × List Arg)
  logs : List String
deriving DecidableEq, Repr

/-- The response written by the HTTP handler. -/
structure HTTPResponse where
  status : Nat
  contentType : String
  xQueryTime : String
  body : String
deriving DecidableEq, Repr

/-- Go's `strings.Join`. -/
def joinSep (sep : String) : List String → String
  | [] => ""
  | [x] => x
  | x :: xs => x ++ sep ++ joinSep sep xs

/-- Lines 72–82 of `main.go`: resolve the `limit` parameter.  Default
10; a non-empty trimmed value must parse via `Atoi` to a positive
integer, else the error `invalid limit`; afterwards values above 100 are
clamped to 100. -/
def resolveLimit (raw : String) : Except String Int :=
  let s := trimSpace raw
  let parsed : Except String Int :=
    if s = "" then .ok 10
    else
      match atoi s with
      | some v => if v > 0 then .ok v else .error "invalid limit"
      | none => .error "invalid limit"
  match parsed with
  | .ok limit => .ok (if limit > 100 then 100 else limit)
  | .error e => .error e

/-- Lines 84–91 of `main.go`: resolve the `offset` parameter.  Default
0; a non-empty trimmed value must parse via `Atoi` to a non-negative
integer, else the error `invalid offset`. -/
def resolveOffset (raw : String) : Except String Int :=
  let s := trimSpace raw
  if s = "" then .ok 0
  else
    match atoi s with
    | some v => if v ≥ 0 then .ok v else .error "invalid offset"
    | none => .error "invalid offset"

/-- Lines 95–105 of `main.go`: the `switch` on the trimmed `sort`
parameter, producing the `orderBy` fragment or the error
`invalid sort value`. -/
def resolveOrderBy (raw : String) : Except String String :=
  let sortParam := trimSpace raw
  if sortParam = "" then .ok ""
  else if sortParam = "price_asc" then .ok "price ASC"
  else if sortParam = "price_desc" then .ok "price DESC"
  else .error "invalid sort value"

/-- Lines 107–132 of `main.go`: build the SQL text and the parallel
bound-argument list from the validated parameters. -/
def buildQuery (genre orderBy : String) (limit offset : Int) :
    String × List Arg :=
  let args0 : List Arg := []
  let where0 : List String := []
  let ga : List Arg × List String :=
    if genre ≠ "" then
      (args0 ++ [Arg.str genre],
       where0 ++ ["genre = $" ++ toString (args0 ++ [Arg.str genre]).length])
    else (args0, where0)
  let sb0 := "SELECT id, title, price, genre FROM books"
  let sb1 :=
    if ga.2.length > 0 then sb0 ++ " WHERE " ++ joinSep " AND " ga.2
    else sb0
  let sb2 := if orderBy ≠ "" then sb1 ++ (" ORDER BY " ++ orderBy) else sb1
  let args2 := ga.1 ++ [Arg.int limit]
  let sb3 := sb2 ++ (" LIMIT $" ++ toString args2.length)
  let args3 := args2 ++ [Arg.int offset]
  let sb4 := sb3 ++ (" OFFSET $" ++ toString args3.length)
  (sb4, args3)

/-- Lines 72–105 of `main.go` in order: validate `limit`, then `offset`,
trim `genre`, then validate `sort`; the first failure short-circuits. -/
def validate (q : Query) : Except String (Int × Int × String × String) :=
  match resolveLimit q.limit with
  | .error e => .error e
  | .ok limit =>
    match resolveOffset q.offset with
    | .error e => .error e
    | .ok offset =>
      match resolveOrderBy q.sort with
      | .error e => .error e
      | .ok orderBy => .ok (limit, offset, trimSpace q.genre, orderBy)

/-- `fmt`'s `%v` of one argument value. -/
def argString : Arg → String
  | .str s => s
  | .int n => toString n

/-- `fmt`'s `%v` of the whole argument slice: `[a b c]`. -/
def argsString (l : List Arg) : String :=
  "[" ++ joinSep " " (l.map argString) ++ "]"

/-- Line 138 of `main.go`: the content of the one log record,
`SQL: %s | args=%v | took=%dms`. -/
def logLine (query : String) (args : List Arg) (elapsedMs : Int) : String :=
  "SQL: " ++ query ++ " | args=" ++ argsString args ++ " | took=" ++
    toString elapsedMs ++ "ms"

/-- `books = append(books, b)` on a Go slice: appending to the nil slice
yields a non-nil slice. -/
def appendSlice : Option (List Book) → Book → Option (List Book)
  | none, b => some [b]
  | some l, b => some (l ++ [b])

/-- Lines 146–152 of `main.go`: the `rows.Next()` / `rows.Scan` loop.
The first scan failure aborts with that error; otherwise every decoded
book is appended to the slice (initially nil). -/
def scanLoop (acc : Option (List Book)) :
    List (Except String Book) → Except String (Option (List Book))
  | [] => .ok acc
  | .error e :: _ => .error e
  | .ok b :: rest => scanLoop (appendSlice acc b) rest

/-- Lines 65–157 of `main.go`: `getBooks`.  Validation failures return
`(nil, 0, err)` with no database call and no log.  Otherwise the built
query is issued once, the log record is emitted, and the query error,
scan loop and terminal `rows.Err()` are checked in that order. -/
def getBooks (q : Query) (db : String → List Arg → DBResult)
    (elapsedMs : Int) : GetBooksOutcome :=
  match validate q with
  | .error e =>
    { books := none, err := some e, elapsed := 0, dbCalls := [], logs := [] }
  | .ok (limit, offset, genre, orderBy) =>
    let qa := buildQuery genre orderBy limit offset
    let res := db qa.1 qa.2
    let rec0 := logLine qa.1 qa.2 elapsedMs
    match res.queryErr with
    | some e =>
      { books := none, err := some e, elapsed := elapsedMs,
        dbCalls := [qa], logs := [rec0] }
    | none =>
      match scanLoop none res.scans with
      | .error e =>
        { books := none, err := some e, elapsed := elapsedMs,
          dbCalls := [qa], logs := [rec0] }
      | .ok books =>
        match res.rowsErr with
        | some e =>
          { books := none, err := some e, elapsed := elapsedMs,
            dbCalls := [qa], logs := [rec0] }
        | none =>
          { books := books, err := none, elapsed := elapsedMs,
            dbCalls := [qa], logs := [rec0] }

/-- One hexadecimal digit, lower case, as `encoding/json` prints it. -/
def hexDigit (n : Nat) : Char :=
  if n < 10 then Char.ofNat (48 + n) else Char.ofNat (87 + n)

/-- `encoding/json` escaping of one character of a Go string, with the
default HTML escaping of `<`, `>`, `&` and of the line and paragraph
separator code points. -/
def jsonEscapeChar (c : Char) : String :=
  if c = '"' then "\\\""
  else if c = '\\' then "\\\\"
  else if c = '\n' then "\\n"
  else if c = '\r' then "\\r"
  else if c = '\t' then "\\t"
  else if c = '<' then "\\u003c"
  else if c = '>' then "\\u003e"
  else if c = '&' then "\\u0026"
  else if c.toNat < 0x20 then
    "\\u00" ++ String.singleton (hexDigit (c.toNat / 16)) ++
      String.singleton (hexDigit (c.toNat % 16))
  else if c.toNat = 0x2028 then "\\u2028"
  else if c.toNat = 0x2029 then "\\u2029"
  else String.singleton c

/-- `encoding/json` rendering of a Go string literal. -/
def jsonString (s : String) : String :=
  "\"" ++ String.join (s.data.map jsonEscapeChar) ++ "\""

/-- One `Book` as the handler's `json.Encoder` (with
`SetIndent("", "  ")`) prints it inside the top-level array. -/
def bookJSON (b : Book) : String :=
  "  \x7b\n    \"id\": " ++ toString b.id ++
  ",\n    \"title\": " ++ jsonString b.title ++
  ",\n    \"price\": " ++ toString b.price ++
  ",\n    \"genre\": " ++ jsonString b.genre ++ "\n  \x7d"

/-- The handler's `json.Encoder` on the returned slice: the nil slice
encodes as `null`, a non-nil slice as a (pretty-printed) array. -/
def booksJSON : Option (List Book) → String
  | none => "null"
  | some [] => "[]"
  | some l => "[\n" ++ joinSep ",\n" (l.map bookJSON) ++ "\n]"

/-- Lines 46–63 of `main.go`: the HTTP handler.  It sets the JSON
content type and the `X-Query-Time` header, answers errors with
`http.Error` (status 400, plain text, message plus newline), and
otherwise encodes the slice with `Encode`, which appends a newline. -/
def makeGetBooksHandler (db : String → List Arg → DBResult) (q : Query)
    (elapsedMs : Int) : HTTPResponse :=
  let out := getBooks q db elapsedMs
  let xqt := toString out.elapsed ++ "ms"
  match out.err with
  | some e =>
    { status := 400, contentType := "text/plain; charset=utf-8",
      xQueryTime := xqt, body := e ++ "\n" }
  | none =>
    { status := 200, contentType := "application/json",
      xQueryTime := xqt, body := booksJSON out.books ++ "\n" }

/-- The six SQL texts `getBooks` can ever issue: with or without the
genre filter, with no ordering, ascending or descending price. -/
def sqlTemplates : List String :=
  ["SELECT id, title, price, genre FROM books LIMIT $1 OFFSET $2",
   "SELECT id, title, price, genre FROM books ORDER BY price ASC LIMIT $1 OFFSET $2",
   "SELECT id, title, price, genre FROM books ORDER BY price DESC LIMIT $1 OFFSET $2",
   "SELECT id, title, price, genre FROM books WHERE genre = $1 LIMIT $2 OFFSET $3",
   "SELECT id, title, price, genre FROM books WHERE genre = $1 ORDER BY price ASC LIMIT $2 OFFSET $3",
   "SELECT id, title, price, genre FROM books WHERE genre = $1 ORDER BY price DESC LIMIT $2 OFFSET $3"]

/-- A database oracle returning an empty cursor with no errors. -/
def dbNoRows : String → List Arg → DBResult :=
  fun _ _ => { queryErr := none, scans := [], rowsErr := none }

/-! ### Helper lemmas -/

theorem dropWhile_all_eq_nil (p : Char → Bool) :
    ∀ l : List Char, l.all p = true → l.dropWhile p = []
  | [], _ => rfl
  | c :: rest, h => by
    simp only [List.all_cons, Bool.and_eq_true] at h
    simp [List.dropWhile_cons, h.1, dropWhile_all_eq_nil p rest h.2]

theorem trimSpace_all_space {s : String} (h : s.data.all goIsSpace = true) :
    trimSpace s = "" := by
  unfold trimSpace
  rw [dropWhile_all_eq_nil goIsSpace s.data h]
  decide

theorem atoi_ne_empty {s : String} {v : Int} (h : atoi s = some v) :
    s ≠ "" := by
  intro he
  rw [he] at h
  have h0 : atoi "" = none := by decide
  rw [h0] at h
  exact Option.noConfusion h

theorem resolveLimit_empty {raw : String} (h : trimSpace raw = "") :
    resolveLimit raw = .ok 10 := by
  simp [resolveLimit, h]

theorem resolveLimit_pos {raw : String} {v : Int}
    (ha : atoi (trimSpace raw) = some v) (h0 : 0 < v) :
    resolveLimit raw = .ok (if v > 100 then 100 else v) := by
  have hne : trimSpace raw ≠ "" := atoi_ne_empty ha
  simp [resolveLimit, hne, ha, h0]

theorem resolveLimit_err {raw : String}
    (hbad : atoi (trimSpace raw) = none ∧ trimSpace raw ≠ "" ∨
      ∃ v, atoi (trimSpace raw) = some v ∧ v ≤ 0) :
    resolveLimit raw = .error "invalid limit" := by
  rcases hbad with ⟨hb, hne⟩ | ⟨v, hv, hle⟩
  · simp [resolveLimit, hne, hb]
  · have hne : trimSpace raw ≠ "" := atoi_ne_empty hv
    have hnp : ¬ (v > 0) := by omega
    simp [resolveLimit, hne, hv, hnp]

theorem resolveLimit_error_eq {raw e : String}
    (h : resolveLimit raw = .error e) : e = "invalid limit" := by
  by_cases hs : trimSpace raw = ""
  · simp [resolveLimit, hs] at h
  · rcases ha : atoi (trimSpace raw) with _ | v
    · simp [resolveLimit, hs, ha] at h
      exact h.symm
    · by_cases hv : v > 0
      · simp [resolveLimit, hs, ha, hv] at h
      · simp [resolveLimit, hs, ha, hv] at h
        exact h.symm

theorem resolveOffset_empty {raw : String} (h : trimSpace raw = "") :
    resolveOffset raw = .ok 0 := by
  simp [resolveOffset, h]

theorem resolveOffset_nonneg {raw : String} {v : Int}
    (ha : atoi (trimSpace raw) = some v) (h0 : 0 ≤ v) :
    resolveOffset raw = .ok v := by
  have hne : trimSpace raw ≠ "" := atoi_ne_empty ha
  simp [resolveOffset, hne, ha, h0]

theorem resolveOffset_err {raw : String}
    (hbad : atoi (trimSpace raw) = none ∧ trimSpace raw ≠ "" ∨
      ∃ v, atoi (trimSpace raw) = some v ∧ v < 0) :
    resolveOffset raw = .error "invalid offset" := by
  rcases hbad with ⟨hb, hne⟩ | ⟨v, hv, hlt⟩
  · simp [resolveOffset, hne, hb]
  · have hne : trimSpace raw ≠ "" := atoi_ne_empty hv
    have hnp : ¬ (v ≥ 0) := by omega
    simp [resolveOffset, hne, hv, hnp]

theorem resolveOffset_error_eq {raw e : String}
    (h : resolveOffset raw = .error e) : e = "invalid offset" := by
  by_cases hs : trimSpace raw = ""
  · simp [resolveOffset, hs] at h
  · rcases ha : atoi (trimSpace raw) with _ | v
    · simp [resolveOffset, hs, ha] at h
      exact h.symm
    · by_cases hv : v ≥ 0
      · simp [resolveOffset, hs, ha, hv] at h
      · simp [resolveOffset, hs, ha, hv] at h
        exact h.symm

theorem resolveOrderBy_ok_cases {raw ob : String}
    (h : resolveOrderBy raw = .ok ob) :
    ob = "" ∨ ob = "price ASC" ∨ ob = "price DESC" := by
  simp only [resolveOrderBy] at h
  split at h <;> [skip; split at h] <;> [skip; skip; split at h] <;>
    simp_all

theorem resolveOrderBy_error_eq {raw e : String}
    (h : resolveOrderBy raw = .error e) : e = "invalid sort value" := by
  simp only [resolveOrderBy] at h
  split at h <;> [skip; split at h] <;> [skip; skip; split at h] <;>
    simp_all

theorem validate_ok_elim {q : Query} {lim off : Int} {genre ob : String}
    (h : validate q = .ok (lim, off, genre, ob)) :
    resolveLimit q.limit = .ok lim ∧ resolveOffset q.offset = .ok off ∧
      genre = trimSpace q.genre ∧ resolveOrderBy q.sort = .ok ob := by
  unfold validate at h
  split at h
  · exact absurd h (by simp)
  next lim0 hL =>
    split at h
    · exact absurd h (by simp)
    next off0 hO =>
      split at h
      · exact absurd h (by simp)
      next ob0 hS =>
        simp only [Except.ok.injEq, Prod.mk.injEq] at h
        obtain ⟨h1, h2, h3, h4⟩ := h
        subst h1; subst h2; subst h3; subst h4
        exact ⟨hL, hO, rfl, hS⟩

theorem validate_error_elim {q : Query} {e : String}
    (h : validate q = .error e) :
    e = "invalid limit" ∨ e = "invalid offset" ∨ e = "invalid sort value" := by
  unfold validate at h
  split at h
  next e0 hL =>
    simp only [Except.error.injEq] at h
    subst h
    exact Or.inl (resolveLimit_error_eq hL)
  next lim0 hL =>
    split at h
    next e0 hO =>
      simp only [Except.error.injEq] at h
      subst h
      exact Or.inr (Or.inl (resolveOffset_error_eq hO))
    next off0 hO =>
      split at h
      next e0 hS =>
        simp only [Except.error.injEq] at h
        subst h
        exact Or.inr (Or.inr (resolveOrderBy_error_eq hS))
      next ob0 hS => exact absurd h (by simp)

theorem validate_limit_err {q : Query}
    (h : resolveLimit q.limit = .error "invalid limit") :
    validate q = .error "invalid limit" := by
  simp [validate, h]

theorem validate_offset_err {q : Query} {lim : Int}
    (hL : resolveLimit q.limit = .ok lim)
    (h : resolveOffset q.offset = .error "invalid offset") :
    validate q = .error "invalid offset" := by
  simp [validate, hL, h]

theorem validate_sort_err {q : Query} {lim off : Int}
    (hL : resolveLimit q.limit = .ok lim)
    (hO : resolveOffset q.offset = .ok off)
    (h : resolveOrderBy q.sort = .error "invalid sort value") :
    validate q = .error "invalid sort value" := by
  simp [validate, hL, hO, h]

theorem getBooks_validate_error {q : Query} {e : String}
    (db : String → List Arg → DBResult) (t : Int)
    (h : validate q = .error e) :
    getBooks q db t =
      { books := none, err := some e, elapsed := 0, dbCalls := [],
        logs := [] } := by
  simp [getBooks, h]

theorem getBooks_validate_ok {q : Query} {lim off : Int} {genre ob : String}
    (db : String → List Arg → DBResult) (t : Int)
    (h : validate q = .ok (lim, off, genre, ob)) :
    (getBooks q db t).dbCalls = [buildQuery genre ob lim off] ∧
    (getBooks q db t).logs =
      [logLine (buildQuery genre ob lim off).1
        (buildQuery genre ob lim off).2 t] ∧
    (getBooks q db t).elapsed = t := by
  simp only [getBooks, h]
  rcases hq : (db (buildQuery genre ob lim off).1
      (buildQuery genre ob lim off).2).queryErr with _ | e
  · simp only [hq]
    rcases hs : scanLoop none (db (buildQuery genre ob lim off).1
        (buildQuery genre ob lim off).2).scans with e2 | bs
    · simp [hs]
    · simp only [hs]
      rcases hr : (db (buildQuery genre ob lim off).1
          (buildQuery genre ob lim off).2).rowsErr with _ | e3 <;>
        simp [hr]
  · simp [hq]

theorem scanLoop_error_of_mem {e : String} :
    ∀ (l : List (Except String Book)) (acc : Option (List Book)),
      Except.error e ∈ l → ∃ e2, scanLoop acc l = Except.error e2
  | [], _, h => absurd h (List.not_mem_nil _)
  | .error e1 :: _, _, _ => ⟨e1, rfl⟩
  | .ok b :: rest, acc, h => by
    have hrest : Except.error e ∈ rest := by
      rcases List.mem_cons.mp h with h1 | h1
      · exact absurd h1 (by simp)
      · exact h1
    exact scanLoop_error_of_mem rest (appendSlice acc b) hrest

theorem buildQuery_args (genre ob : String) (lim off : Int) :
    (buildQuery genre ob lim off).2 =
      (if genre = "" then [] else [Arg.str genre]) ++
        [Arg.int lim, Arg.int off] := by
  by_cases hg : genre = "" <;> simp [buildQuery, hg]

example : trimSpace "  price_asc " = "price_asc" := by decide
example : atoi "250" = some 250 := by decide
example : atoi "+07" = some 7 := by decide
example : atoi "" = none := by decide
example : atoi "12a" = none := by decide
example : resolveLimit " 250 " = .ok 100 := by decide
example : resolveLimit "0" = .error "invalid limit" := by decide
example :
    (buildQuery "SF" "price ASC" 5 2).1 =
      "SELECT id, title, price, genre FROM books WHERE genre = $1 ORDER BY price ASC LIMIT $2 OFFSET $3" := by
  decide
example :
    (buildQuery "" "" 10 0).2 = [Arg.int 10, Arg.int 0] := by decide
example :
    (getBooks ⟨"", "", "Mystery", ""⟩ dbNoRows 0).books = none := by decide
example :
    (makeGetBooksHandler dbNoRows ⟨"", "", "Mystery", ""⟩ 0).body =
      "null\n" := by decide

/-! ### Claims -/

/-- C1: for every request that passes validation, the SQL text passed to
the database is one of the six fixed templates (determined only by the
presence of a non-empty trimmed genre and the validated sort value), and
the user-supplied values (genre, limit, offset) appear only in the
bound-argument list, never concatenated into the SQL body. -/
theorem C1_sql_injection_free (q : Query)
    (db : String → List Arg → DBResult) (t lim off : Int)
    (genre ob : String) (h : validate q = .ok (lim, off, genre, ob)) :
    (getBooks q db t).dbCalls = [buildQuery genre ob lim off] ∧
    (buildQuery genre ob lim off).1 ∈ sqlTemplates ∧
    (buildQuery genre ob lim off).2 =
      (if genre = "" then [] else [Arg.str genre]) ++
        [Arg.int lim, Arg.int off] := by
  refine ⟨(getBooks_validate_ok db t h).1, ?_,
    buildQuery_args genre ob lim off⟩
  have hcases := resolveOrderBy_ok_cases (validate_ok_elim h).2.2.2
  by_cases hg : genre = "" <;> rcases hcases with h1 | h1 | h1 <;>
    subst h1 <;> simp [buildQuery, hg, joinSep, sqlTemplates] <;> decide

/-- C1 witness at `limit=5&offset=2&genre=SF&sort=price_asc`. -/
theorem C1_witness :
    (getBooks ⟨"5", "2", "SF", "price_asc"⟩ dbNoRows 1).dbCalls =
      [buildQuery "SF" "price ASC" 5 2] ∧
    (buildQuery "SF" "price ASC" 5 2).1 ∈ sqlTemplates ∧
    (buildQuery "SF" "price ASC" 5 2).2 =
      (if "SF" = "" then [] else [Arg.str "SF"]) ++
        [Arg.int 5, Arg.int 2] :=
  C1_sql_injection_free ⟨"5", "2", "SF", "price_asc"⟩ dbNoRows 1 5 2
    "SF" "price ASC" (by decide)

/-- C4: for every request that passes validation, the constructed SQL
statement is exactly the base select, followed by `WHERE genre = $1` iff
a genre filter is present, followed by the `ORDER BY` clause iff sort
was given, followed by `LIMIT` and `OFFSET` placeholders, whose ordinals
match the bound-argument order genre (if present), limit, offset. -/
theorem C4_sql_shape (q : Query) (lim off : Int) (genre ob : String)
    (h : validate q = .ok (lim, off, genre, ob)) :
    (buildQuery genre ob lim off).1 =
      "SELECT id, title, price, genre FROM books"
      ++ (if genre = "" then "" else " WHERE genre = $1")
      ++ (if ob = "" then ""
          else if ob = "price ASC" then " ORDER BY price ASC"
          else " ORDER BY price DESC")
      ++ (if genre = "" then " LIMIT $1" else " LIMIT $2")
      ++ (if genre = "" then " OFFSET $2" else " OFFSET $3") ∧
    (buildQuery genre ob lim off).2 =
      (if genre = "" then [] else [Arg.str genre]) ++
        [Arg.int lim, Arg.int off] := by
  refine ⟨?_, buildQuery_args genre ob lim off⟩
  have hcases := resolveOrderBy_ok_cases (validate_ok_elim h).2.2.2
  by_cases hg : genre = "" <;> rcases hcases with h1 | h1 | h1 <;>
    subst h1 <;> simp [buildQuery, hg, joinSep] <;> decide

/-- C4 witness at `sort=price_desc` with no genre. -/
theorem C4_witness :
    (buildQuery "" "price DESC" 10 0).1 =
      "SELECT id, title, price, genre FROM books"
      ++ (if "" = "" then "" else " WHERE genre = $1")
      ++ (if "price DESC" = "" then ""
          else if "price DESC" = "price ASC" then " ORDER BY price ASC"
          else " ORDER BY price DESC")
      ++ (if "" = "" then " LIMIT $1" else " LIMIT $2")
      ++ (if "" = "" then " OFFSET $2" else " OFFSET $3") ∧
    (buildQuery "" "price DESC" 10 0).2 =
      (if "" = "" then [] else [Arg.str ""]) ++
        [Arg.int 10, Arg.int 0] :=
  C4_sql_shape ⟨"", "", "", "price_desc"⟩ 10 0 "" "price DESC" (by decide)

/-- C2: the `limit` parameter resolves to the default 10 when empty
after trimming; to `v` when it parses as a positive integer `v ≤ 100`;
to exactly 100 when it parses as a positive integer above 100; and any
value that does not parse as a positive integer makes `getBooks` fail
with the `invalid limit` error. -/
theorem C2_limit_resolution (q : Query)
    (db : String → List Arg → DBResult) (t : Int) :
    (trimSpace q.limit = "" → resolveLimit q.limit = .ok 10) ∧
    (∀ v : Int, atoi (trimSpace q.limit) = some v → 0 < v → v ≤ 100 →
      resolveLimit q.limit = .ok v) ∧
    (∀ v : Int, atoi (trimSpace q.limit) = some v → 100 < v →
      resolveLimit q.limit = .ok 100) ∧
    ((atoi (trimSpace q.limit) = none ∧ trimSpace q.limit ≠ "" ∨
        ∃ v, atoi (trimSpace q.limit) = some v ∧ v ≤ 0) →
      getBooks q db t =
        { books := none, err := some "invalid limit", elapsed := 0,
          dbCalls := [], logs := [] }) := by
  refine ⟨resolveLimit_empty, ?_, ?_, ?_⟩
  · intro v ha h0 h100
    have hno : ¬ (v > 100) := by omega
    simp [resolveLimit_pos ha h0, hno]
  · intro v ha h100
    have h0 : 0 < v := by omega
    simp [resolveLimit_pos ha h0, h100]
  · intro hbad
    exact getBooks_validate_error db t (validate_limit_err (resolveLimit_err hbad))

/-- C2 witness: default, in-range, clamped and failing limits. -/
theorem C2_witness :
    resolveLimit "" = .ok 10 ∧ resolveLimit " 55 " = .ok 55 ∧
    resolveLimit "250" = .ok 100 ∧
    getBooks ⟨"abc", "", "", ""⟩ dbNoRows 9 =
      { books := none, err := some "invalid limit", elapsed := 0,
        dbCalls := [], logs := [] } :=
  ⟨(C2_limit_resolution ⟨"", "", "", ""⟩ dbNoRows 9).1 (by decide),
   (C2_limit_resolution ⟨" 55 ", "", "", ""⟩ dbNoRows 9).2.1 55 (by decide)
     (by decide) (by decide),
   (C2_limit_resolution ⟨"250", "", "", ""⟩ dbNoRows 9).2.2.1 250 (by decide)
     (by decide),
   (C2_limit_resolution ⟨"abc", "", "", ""⟩ dbNoRows 9).2.2.2
     (Or.inl ⟨by decide, by decide⟩)⟩

/-- C9: the `offset` parameter resolves to the default 0 when empty
after trimming; to `v` when it parses as a non-negative integer `v`;
and any value that does not parse as a non-negative integer makes
`getBooks` fail with the `invalid offset` error (the limit having
passed validation first). -/
theorem C9_offset_resolution (q : Query)
    (db : String → List Arg → DBResult) (t : Int) :
    (trimSpace q.offset = "" → resolveOffset q.offset = .ok 0) ∧
    (∀ v : Int, atoi (trimSpace q.offset) = some v → 0 ≤ v →
      resolveOffset q.offset = .ok v) ∧
    (∀ lim : Int, resolveLimit q.limit = .ok lim →
      (atoi (trimSpace q.offset) = none ∧ trimSpace q.offset ≠ "" ∨
        ∃ v, atoi (trimSpace q.offset) = some v ∧ v < 0) →
      getBooks q db t =
        { books := none, err := some "invalid offset", elapsed := 0,
          dbCalls := [], logs := [] }) := by
  refine ⟨resolveOffset_empty, fun v ha h0 => resolveOffset_nonneg ha h0, ?_⟩
  intro lim hL hbad
  exact getBooks_validate_error db t
    (validate_offset_err hL (resolveOffset_err hbad))

/-- C9 witness: default, in-range and failing offsets. -/
theorem C9_witness :
    resolveOffset "" = .ok 0 ∧ resolveOffset " 7 " = .ok 7 ∧
    getBooks ⟨"", "-3", "", ""⟩ dbNoRows 4 =
      { books := none, err := some "invalid offset", elapsed := 0,
        dbCalls := [], logs := [] } :=
  ⟨(C9_offset_resolution ⟨"", "", "", ""⟩ dbNoRows 4).1 (by decide),
   (C9_offset_resolution ⟨"", " 7 ", "", ""⟩ dbNoRows 4).2.1 7 (by decide)
     (by decide),
   (C9_offset_resolution ⟨"", "-3", "", ""⟩ dbNoRows 4).2.2 10 (by decide)
     (Or.inr ⟨-3, by decide, by decide⟩)⟩

/-- C10: a `limit` or `offset` value consisting only of white space is
treated as absent — the defaults 10 and 0 apply — because each raw
value is trimmed before the emptiness check that gates parsing. -/
theorem C10_whitespace_defaults (q : Query) :
    (q.limit.data.all goIsSpace = true → resolveLimit q.limit = .ok 10) ∧
    (q.offset.data.all goIsSpace = true → resolveOffset q.offset = .ok 0) :=
  ⟨fun h => resolveLimit_empty (trimSpace_all_space h),
   fun h => resolveOffset_empty (trimSpace_all_space h)⟩

/-- C10 witness: whitespace-only limit and offset. -/
theorem C10_witness :
    resolveLimit "   " = .ok 10 ∧ resolveOffset " " = .ok 0 :=
  ⟨(C10_whitespace_defaults ⟨"   ", " ", "", ""⟩).1 (by decide),
   (C10_whitespace_defaults ⟨"   ", " ", "", ""⟩).2 (by decide)⟩

/-- C5: whenever validation of `limit`, `offset` or `sort` fails,
`getBooks` returns one of the three `InvalidParameter` errors before
issuing any database call, with elapsed time exactly 0 (and no log). -/
theorem C5_invalid_before_db (q : Query)
    (db : String → List Arg → DBResult) (t : Int) (e : String)
    (h : validate q = .error e) :
    getBooks q db t =
      { books := none, err := some e, elapsed := 0, dbCalls := [],
        logs := [] } ∧
    (e = "invalid limit" ∨ e = "invalid offset" ∨
      e = "invalid sort value") :=
  ⟨getBooks_validate_error db t h, validate_error_elim h⟩

/-- C5 witness at `sort=title`. -/
theorem C5_witness :
    getBooks ⟨"", "", "", "title"⟩ dbNoRows 6 =
      { books := none, err := some "invalid sort value", elapsed := 0,
        dbCalls := [], logs := [] } ∧
    ("invalid sort value" = "invalid limit" ∨
      "invalid sort value" = "invalid offset" ∨
      "invalid sort value" = "invalid sort value") :=
  C5_invalid_before_db ⟨"", "", "", "title"⟩ dbNoRows 6
    "invalid sort value" (by decide)

/-- C6: the trimmed sort parameter is accepted iff it is one of `""`,
`"price_asc"`, `"price_desc"`; any other value makes `getBooks` fail
with the `invalid sort value` error (limit and offset having passed);
and the empty value produces no `ORDER BY` clause in the query. -/
theorem C6_sort_validation (q : Query)
    (db : String → List Arg → DBResult) (t : Int) :
    ((∃ ob, resolveOrderBy q.sort = .ok ob) ↔
      (trimSpace q.sort = "" ∨ trimSpace q.sort = "price_asc" ∨
        trimSpace q.sort = "price_desc")) ∧
    (∀ lim off : Int, resolveLimit q.limit = .ok lim →
      resolveOffset q.offset = .ok off →
      ¬(trimSpace q.sort = "" ∨ trimSpace q.sort = "price_asc" ∨
        trimSpace q.sort = "price_desc") →
      getBooks q db t =
        { books := none, err := some "invalid sort value", elapsed := 0,
          dbCalls := [], logs := [] }) ∧
    (trimSpace q.sort = "" → resolveOrderBy q.sort = .ok "") ∧
    (∀ genre : String, ∀ lim off : Int,
      (buildQuery genre "" lim off).1 =
        (if genre = "" then
          "SELECT id, title, price, genre FROM books LIMIT $1 OFFSET $2"
         else
          "SELECT id, title, price, genre FROM books WHERE genre = $1 LIMIT $2 OFFSET $3")) := by
  refine ⟨⟨?_, ?_⟩, ?_, ?_, ?_⟩
  · rintro ⟨ob, hob⟩
    by_contra hc
    push_neg at hc
    obtain ⟨h1, h2, h3⟩ := hc
    simp [resolveOrderBy, h1, h2, h3] at hob
  · rintro (h1 | h1 | h1)
    · exact ⟨"", by simp [resolveOrderBy, h1]⟩
    · exact ⟨"price ASC", by simp [resolveOrderBy, h1]⟩
    · exact ⟨"price DESC", by simp [resolveOrderBy, h1]⟩
  · intro lim off hL hO hc
    push_neg at hc
    obtain ⟨h1, h2, h3⟩ := hc
    exact getBooks_validate_error db t (validate_sort_err hL hO
      (by simp [resolveOrderBy, h1, h2, h3]))
  · intro h1
    simp [resolveOrderBy, h1]
  · intro genre lim off
    by_cases hg : genre = "" <;> simp [buildQuery, hg, joinSep] <;> decide

/-- C6 witness: accepted and rejected sort values. -/
theorem C6_witness :
    ((∃ ob, resolveOrderBy "price_desc" = .ok ob) ↔
      (trimSpace "price_desc" = "" ∨
        trimSpace "price_desc" = "price_asc" ∨
        trimSpace "price_desc" = "price_desc")) ∧
    getBooks ⟨"", "", "", "rating"⟩ dbNoRows 8 =
      { books := none, err := some "invalid sort value", elapsed := 0,
        dbCalls := [], logs := [] } :=
  ⟨(C6_sort_validation ⟨"", "", "", "price_desc"⟩ dbNoRows 8).1,
   (C6_sort_validation ⟨"", "", "", "rating"⟩ dbNoRows 8).2.1 10 0
     (by decide) (by decide) (by decide)⟩

/-- C7: if any row fails to decode, or the cursor reports a terminal
error after the rows are exhausted, `getBooks` returns an error and the
nil slice — never a partial prefix of successfully decoded rows. -/
theorem C7_no_partial_results (q : Query)
    (db : String → List Arg → DBResult) (t lim off : Int)
    (genre ob : String) (h : validate q = .ok (lim, off, genre, ob))
    (hq : (db (buildQuery genre ob lim off).1
      (buildQuery genre ob lim off).2).queryErr = none)
    (hbad : (∃ e, Except.error e ∈ (db (buildQuery genre ob lim off).1
        (buildQuery genre ob lim off).2).scans) ∨
      (db (buildQuery genre ob lim off).1
        (buildQuery genre ob lim off).2).rowsErr ≠ none) :
    (getBooks q db t).err.isSome ∧ (getBooks q db t).books = none := by
  simp only [getBooks, h, hq]
  rcases hs : scanLoop none (db (buildQuery genre ob lim off).1
      (buildQuery genre ob lim off).2).scans with e2 | bs
  · simp [hs]
  · simp only [hs]
    rcases hbad with ⟨e, hmem⟩ | hre
    · obtain ⟨e2, he2⟩ := scanLoop_error_of_mem _ none hmem
      rw [he2] at hs
      exact absurd hs (by simp)
    · rcases hr : (db (buildQuery genre ob lim off).1
          (buildQuery genre ob lim off).2).rowsErr with _ | e3
      · exact absurd hr hre
      · simp [hr]

/-- A database oracle whose cursor yields one good row and then a row
that fails to decode. -/
def dbBadRow : String → List Arg → DBResult :=
  fun _ _ =>
    { queryErr := none,
      scans := [Except.ok ⟨1, "T", 5, "G"⟩,
                Except.error "sql: Scan error on column index 2"],
      rowsErr := none }

/-- C7 witness: a failing second row aborts the whole operation. -/
theorem C7_witness :
    (getBooks ⟨"", "", "", ""⟩ dbBadRow 2).err.isSome ∧
    (getBooks ⟨"", "", "", ""⟩ dbBadRow 2).books = none :=
  C7_no_partial_results ⟨"", "", "", ""⟩ dbBadRow 2 10 0 "" ""
    (by decide) rfl
    (Or.inl ⟨"sql: Scan error on column index 2", by decide⟩)

/-- C8 counterexample: an invocation that fails `limit` validation
returns before the `log.Printf` call and emits no log record at all,
refuting "every invocation emits exactly one log record". -/
theorem C8_counterexample :
    (getBooks ⟨"abc", "", "", ""⟩ dbNoRows 5).err =
      some "invalid limit" ∧
    (getBooks ⟨"abc", "", "", ""⟩ dbNoRows 5).logs = [] ∧
    ¬ (getBooks ⟨"abc", "", "", ""⟩ dbNoRows 5).logs.length = 1 := by
  decide

/-- C8 as amended: an invocation that passes parameter validation emits
exactly one log record with the final SQL text, the bound arguments in
order and the elapsed milliseconds, whether the database call succeeds
or fails; an invocation that fails parameter validation emits none. -/
theorem C8_one_log_after_validation (q : Query)
    (db : String → List Arg → DBResult) (t : Int) :
    ((∃ e, validate q = .error e) → (getBooks q db t).logs = []) ∧
    (∀ (lim off : Int) (genre ob : String),
      validate q = .ok (lim, off, genre, ob) →
      (getBooks q db t).logs =
        [logLine (buildQuery genre ob lim off).1
          (buildQuery genre ob lim off).2 t]) := by
  constructor
  · rintro ⟨e, he⟩
    rw [getBooks_validate_error db t he]
  · intro lim off genre ob h
    exact (getBooks_validate_ok db t h).2.1

/-- C8 witness: one log line on a valid request, none on an invalid
one. -/
theorem C8_witness :
    (getBooks ⟨"", "", "", ""⟩ dbNoRows 5).logs =
      [logLine (buildQuery "" "" 10 0).1 (buildQuery "" "" 10 0).2 5] ∧
    (getBooks ⟨"", "", "", "bogus"⟩ dbNoRows 5).logs = [] :=
  ⟨(C8_one_log_after_validation ⟨"", "", "", ""⟩ dbNoRows 5).2 10 0 "" ""
     (by decide),
   (C8_one_log_after_validation ⟨"", "", "", "bogus"⟩ dbNoRows 5).1
     ⟨"invalid sort value", by decide⟩⟩

/-- C3 counterexample: a valid request whose query matches zero rows.
`getBooks` leaves the slice nil (`books = none`) and the handler's JSON
encoder therefore writes the body `null`, not a JSON array — refuting
"not null" and "a JSON array (not JSON null)".  The request is valid
(status 200, no error), so the claim's premise holds. -/
theorem C3_counterexample :
    validate ⟨"", "", "Mystery", ""⟩ = .ok (10, 0, "Mystery", "") ∧
    (getBooks ⟨"", "", "Mystery", ""⟩ dbNoRows 0).err = none ∧
    (getBooks ⟨"", "", "Mystery", ""⟩ dbNoRows 0).books = none ∧
    (makeGetBooksHandler dbNoRows ⟨"", "", "Mystery", ""⟩ 0).status =
      200 ∧
    (makeGetBooksHandler dbNoRows ⟨"", "", "Mystery", ""⟩ 0).body =
      "null\n" ∧
    booksJSON (getBooks ⟨"", "", "Mystery", ""⟩ dbNoRows 0).books ≠
      "[]" := by
  decide

/-- C3 as amended: a valid request matching zero rows returns the nil
(hence empty) slice with no error, and the HTTP response is a 200 whose
JSON body is `null` — the encoding of the nil slice — rather than an
empty JSON array. -/
theorem C3_zero_rows_null (q : Query)
    (db : String → List Arg → DBResult) (t lim off : Int)
    (genre ob : String) (h : validate q = .ok (lim, off, genre, ob))
    (hdb : db (buildQuery genre ob lim off).1
        (buildQuery genre ob lim off).2 =
      { queryErr := none, scans := [], rowsErr := none }) :
    (getBooks q db t).err = none ∧
    (getBooks q db t).books = none ∧
    (makeGetBooksHandler db q t).status = 200 ∧
    (makeGetBooksHandler db q t).body = "null\n" := by
  refine ⟨?_, ?_, ?_, ?_⟩ <;>
    simp [makeGetBooksHandler, getBooks, h, hdb, scanLoop, booksJSON]

/-- C3 witness for the amended statement, at a fresh genre. -/
theorem C3_witness :
    (getBooks ⟨"", "", "NoSuchGenre", ""⟩ dbNoRows 3).books = none ∧
    (makeGetBooksHandler dbNoRows ⟨"", "", "NoSuchGenre", ""⟩ 3).status =
      200 ∧
    (makeGetBooksHandler dbNoRows ⟨"", "", "NoSuchGenre", ""⟩ 3).body =
      "null\n" := by
  have h := C3_zero_rows_null ⟨"", "", "NoSuchGenre", ""⟩ dbNoRows 3
    10 0 "NoSuchGenre" "" (by decide) rfl
  exact ⟨h.2.1, h.2.2.1, h.2.2.2⟩

end GoBooks
